import Mathlib

/-!
# Verification of the umakeit profile-bubbles widget

Shallow embedding of the profile-management logic of the `ProfileContainer`
components and the `Modal` of this repository, together with the physics
set-up geometry and the per-frame update loops.  Two variants of the
component exist in the sources:

* the fetch-based variant (`src/components/ProfileContainer.jsx`), whose
  add-profile form looks a username up on the GitHub users endpoint, and
* the manual-entry variant (`src/unnamed/part_001`), whose form takes a
  name, a profile URL and an optional avatar URL, and which also carries
  the `handleRemoveProfile` handler.

Machine integers do not occur; ids are JavaScript `Date.now()` values
(naturals in the embedding) and geometric quantities are rationals.
The network is modelled as an oracle value of type `FetchResult` passed to
the handler: it stands for what the single `fetch` of the handler would
observe if performed.
-/

namespace UMakeIt

/-! ## JavaScript string primitives

The JavaScript string methods the code uses (`trim`, `includes`,
`split`) are modelled on the character list of the string by structural
recursion, so that every definition evaluates inside the kernel. -/

/-- Whether `p` is an initial run of `l` (character-wise). -/
def beginsWith : List Char → List Char → Bool
  | [], _ => true
  | _ :: _, [] => false
  | p :: ps, c :: cs => p == c && beginsWith ps cs

/-- The suffix of `l` starting right after the first occurrence of the
non-empty pattern `sep`, or `none` when `sep` does not occur. -/
def afterFirst (sep : List Char) : List Char → Option (List Char)
  | [] => none
  | c :: cs =>
      if beginsWith sep (c :: cs) then some (List.drop sep.length (c :: cs))
      else afterFirst sep cs

/-- The part of `l` before the first occurrence of the non-empty pattern
`sep` (all of `l` when `sep` does not occur). -/
def upTo (sep : List Char) : List Char → List Char
  | [] => []
  | c :: cs => if beginsWith sep (c :: cs) then [] else c :: upTo sep cs

/-- Whether the non-empty pattern `sep` occurs in `l`. -/
def hasOccurrence (sep : List Char) : List Char → Bool
  | [] => false
  | c :: cs => beginsWith sep (c :: cs) || hasOccurrence sep cs

/-- JavaScript `s.trim()`: the string with leading and trailing
whitespace characters removed. -/
def jsTrim (s : String) : String :=
  String.mk
    (((s.data.dropWhile Char.isWhitespace).reverse.dropWhile
        Char.isWhitespace).reverse)

/-- The JSON profile returned by the GitHub users endpoint, restricted to
the fields the code reads: `login`, `name` (nullable), `html_url`,
`avatar_url`. -/
structure GithubProfile where
  login : String
  name : Option String
  html_url : String
  avatar_url : String
  deriving Repr, DecidableEq

/-- JavaScript `a || b` where `a` is a nullable string: `null` and the
empty string are falsy, so both fall through to `b`. -/
def jsOrString : Option String → String → String
  | none, b => b
  | some a, b => if a = "" then b else a

/-- The in-memory profile record.  The three seeded profiles carry only
the four fields `id`, `name`, `profileUrl`, `avatarUrl`; a profile built
by the fetch-based `handleAddProfile` additionally carries a `username`
field (`src/components/ProfileContainer.jsx` line 97).  An absent field is
`none`. -/
structure Profile where
  id : Nat
  name : String
  profileUrl : String
  avatarUrl : String
  username : Option String := none
  deriving Repr, DecidableEq

/-- The three seeded profiles of the `profiles` state
(`src/components/ProfileContainer.jsx` lines 39-58, identical in
`src/unnamed/part_001`). -/
def initialProfiles : List Profile :=
  [ { id := 1
      name := "Linus Torvalds"
      profileUrl := "https://github.com/torvalds"
      avatarUrl := "https://github.com/torvalds.png" },
    { id := 2
      name := "Dan Abramov"
      profileUrl := "https://github.com/gaearon"
      avatarUrl := "https://github.com/gaearon.png" },
    { id := 3
      name := "Evan You"
      profileUrl := "https://github.com/yyx990803"
      avatarUrl := "https://github.com/yyx990803.png" } ]

/-- Outcome of the single `fetch` of the fetch-based `handleAddProfile`:
an ok response carrying the decoded JSON profile, a not-ok response with
its numeric status, or a rejected promise carrying the error message. -/
inductive FetchResult where
  | ok (profile : GithubProfile)
  | notOk (status : Nat)
  | netFail (message : String)
  deriving Repr, DecidableEq

/-- The component state of the fetch-based variant that the add/remove
logic touches: the `profiles`, `formData.username`, `isLoading`, `error`
and `isModalOpen` React states. -/
structure ContainerState where
  profiles : List Profile
  formUsername : String
  isLoading : Bool
  error : String
  isModalOpen : Bool
  deriving Repr, DecidableEq

/-- The profile object built from a successful lookup
(`src/components/ProfileContainer.jsx` lines 92-98):
`id` is `Date.now()`, `name` is `githubProfile.name || githubProfile.login`,
`profileUrl` is `html_url`, `avatarUrl` is `avatar_url`, and `username` is
`githubProfile.login`. -/
def mkFetchedProfile (now : Nat) (gh : GithubProfile) : Profile :=
  { id := now
    name := jsOrString gh.name gh.login
    profileUrl := gh.html_url
    avatarUrl := gh.avatar_url
    username := some gh.login }

/-- Handler `handleAddProfile` of `src/components/ProfileContainer.jsx`
(lines 66-110).  `fetchResult` is what the single `fetch` would observe;
`now` is `Date.now()`.  Returns the new state together with the number of
network fetches the run performed.

The control flow of the source: a blank (whitespace-only) username sets the
error message and returns before any fetch; otherwise `isLoading` is set,
the error cleared, and the fetch performed once.  A not-ok response throws
`"GitHub user not found"` on status 404 and `"Failed to fetch profile
data"` otherwise; a rejected fetch surfaces its own message; the `catch`
stores the thrown message in `error`; the `finally` clears `isLoading`.
On success the new profile is appended, the form reset and the modal
closed. -/
def handleAddProfile (s : ContainerState) (fetchResult : FetchResult)
    (now : Nat) : ContainerState × Nat :=
  if jsTrim s.formUsername = "" then
    ({ s with error := "Please enter a GitHub username" }, 0)
  else
    match fetchResult with
    | .ok gh =>
        ({ s with profiles := s.profiles ++ [mkFetchedProfile now gh]
                  formUsername := ""
                  isModalOpen := false
                  error := ""
                  isLoading := false }, 1)
    | .notOk status =>
        ({ s with error := if status = 404 then "GitHub user not found"
                           else "Failed to fetch profile data"
                  isLoading := false }, 1)
    | .netFail msg =>
        ({ s with error := msg
                  isLoading := false }, 1)

/-- Handler `handleInputChange` of `src/components/ProfileContainer.jsx`
(lines 113-116): stores the typed value and clears the error when one is
displayed. -/
def handleInputChange (s : ContainerState) (value : String) :
    ContainerState :=
  { s with formUsername := value
           error := if s.error = "" then s.error else "" }

/-- The Add-Your-Profile button click
(`src/components/ProfileContainer.jsx` lines 423-427): opens the modal,
clears the error and resets the form. -/
def openModalClick (s : ContainerState) : ContainerState :=
  { s with isModalOpen := true, error := "", formUsername := "" }

/-- The modal `onClose` / Cancel action
(`src/components/ProfileContainer.jsx` lines 456-460 and 498-502): closes
the modal, clears the error and resets the form. -/
def closeModalClick (s : ContainerState) : ContainerState :=
  { s with isModalOpen := false, error := "", formUsername := "" }

/-- Whether a `FetchResult` is a failure (not-ok response or rejected
fetch). -/
def FetchResult.isFailure : FetchResult → Prop
  | .ok _ => False
  | .notOk _ => True
  | .netFail _ => True

instance : DecidablePred FetchResult.isFailure := fun r =>
  match r with
  | .ok _ => inferInstanceAs (Decidable False)
  | .notOk _ => inferInstanceAs (Decidable True)
  | .netFail _ => inferInstanceAs (Decidable True)

/-- The message the `catch` of `handleAddProfile` stores for a failing
fetch result. -/
def FetchResult.failureMessage : FetchResult → String
  | .ok _ => ""
  | .notOk status => if status = 404 then "GitHub user not found"
                     else "Failed to fetch profile data"
  | .netFail msg => msg

/-- Handler `handleRemoveProfile` of `src/unnamed/part_001` (lines 148-150):
keeps exactly the profiles whose id differs from `profileId`. -/
def handleRemoveProfile (profiles : List Profile) (profileId : Nat) :
    List Profile :=
  profiles.filter (fun profile => profile.id != profileId)

/-- JavaScript `s.includes(sep)` for a non-empty separator. -/
def jsIncludes (s sep : String) : Bool :=
  hasOccurrence sep.data s.data

/-- The username extraction of the manual-entry form
(`src/unnamed/part_001` line 112):
`formData.profileUrl.split("github.com/")[1]?.split("/")[0]`.
JavaScript `split` cuts at the leftmost non-overlapping occurrences of the
separator, so piece `[1]` is the text between the end of the first
occurrence of `"github.com/"` and the next occurrence (or the end of the
string), of which `.split("/")[0]` keeps the part before the first `"/"`.
An undefined piece (no occurrence at all) is read as the empty string,
which is falsy exactly like `undefined` at the `if (username)` check that
consumes the result. -/
def githubSegment (url : String) : String :=
  match afterFirst "github.com/".data url.data with
  | none => ""
  | some rest =>
      String.mk (upTo "/".data (upTo "github.com/".data rest))

/-- Form state of the manual-entry variant (`src/unnamed/part_001`
lines 95-99). -/
structure ManualFormData where
  name : String
  profileUrl : String
  avatarUrl : String
  deriving Repr, DecidableEq

/-- Component state the manual-entry add handler touches. -/
structure ManualState where
  profiles : List Profile
  form : ManualFormData
  isModalOpen : Bool
  deriving Repr, DecidableEq

/-- The avatar URL stored by the manual-entry `handleAddProfile`
(`src/unnamed/part_001` lines 109-122): the trimmed avatar field; when
that is blank and the (untrimmed) profile URL contains `"github.com/"`,
the URL derived from the extracted username when the extraction is
non-empty; and `"https://github.com/github.png"` when the result so far is
still blank. -/
def manualAvatarUrl (form : ManualFormData) : String :=
  let avatarUrl0 := jsTrim form.avatarUrl
  let avatarUrl :=
    if avatarUrl0 = "" ∧ jsIncludes form.profileUrl "github.com/" then
      let username := githubSegment form.profileUrl
      if username = "" then avatarUrl0
      else "https://github.com/" ++ username ++ ".png"
    else avatarUrl0
  if avatarUrl = "" then "https://github.com/github.png" else avatarUrl

/-- Handler `handleAddProfile` of the manual-entry variant
(`src/unnamed/part_001` lines 102-128): no-op when the trimmed name or the
trimmed profile URL is blank; otherwise appends the new profile (id is
`Date.now()`, name and profile URL trimmed, avatar per `manualAvatarUrl`),
resets the form and closes the modal. -/
def handleAddProfileManual (s : ManualState) (now : Nat) : ManualState :=
  if jsTrim s.form.name = "" ∨ jsTrim s.form.profileUrl = "" then s
  else
    { profiles := s.profiles ++
        [ { id := now
            name := jsTrim s.form.name
            profileUrl := jsTrim s.form.profileUrl
            avatarUrl := manualAvatarUrl s.form } ]
      form := { name := "", profileUrl := "", avatarUrl := "" }
      isModalOpen := false }

/-! ## Physics set-up geometry (fetch-based variant) -/

/-- A DOM rectangle as measured by `getBoundingClientRect`: left, top,
width, height. -/
structure Rect where
  left : ℚ
  top : ℚ
  width : ℚ
  height : ℚ
  deriving Repr, DecidableEq

/-- Arguments of one `Bodies.rectangle(x, y, width, height, ...)` call. -/
structure BodySpec where
  x : ℚ
  y : ℚ
  width : ℚ
  height : ℚ
  deriving Repr, DecidableEq

/-- Everything the physics effect of `src/components/ProfileContainer.jsx`
creates, described by the geometry the code passes to the library. -/
structure PhysicsSetup where
  floor : BodySpec
  leftWall : BodySpec
  rightWall : BodySpec
  ceiling : BodySpec
  wordBodies : List BodySpec
  deriving Repr, DecidableEq

/-- The body of the physics effect of `src/components/ProfileContainer.jsx`
(lines 217-386) up to body creation: measures the container, returns
without creating anything when the width or height is not strictly
positive (line 227), and otherwise records the four boundary rectangles
(lines 261-288) and one body per profile element (lines 291-302). -/
def setupPhysics (containerRect : Rect) (elemRects : List Rect) :
    Option PhysicsSetup :=
  let width := containerRect.width
  let height := containerRect.height
  if width ≤ 0 ∨ height ≤ 0 then none
  else some
    { floor := ⟨width / 2, height, width, 50⟩
      leftWall := ⟨-25, height / 2, 50, height⟩
      rightWall := ⟨width, height / 2, 50, height⟩
      ceiling := ⟨width / 2, -25, width, 50⟩
      wordBodies := elemRects.map fun r =>
        ⟨r.left - containerRect.left + r.width / 2,
         r.top - containerRect.top + r.height / 2,
         r.width, r.height⟩ }

/-- The physics effect including its `effectStarted` guard (line 218). -/
def physicsEffect (effectStarted : Bool) (containerRect : Rect)
    (elemRects : List Rect) : Option PhysicsSetup :=
  if !effectStarted then none
  else setupPhysics containerRect elemRects

/-- Handler `handleResize` of `src/components/ProfileContainer.jsx`
(lines 205-211): when the effect is running it is torn down
(`setEffectStarted(false)`, which unmounts the physics world through the
effect cleanup) and recreated 100 ms later (`setEffectStarted(true)`).
Returns the pair (value of `effectStarted` immediately, value after the
timeout fires). -/
def handleResize (effectStarted : Bool) : Bool × Bool :=
  if effectStarted then (false, true) else (effectStarted, effectStarted)

/-! ## Per-frame update loops -/

/-- The `16.666` millisecond frame budget of the 60 FPS cap
(`src/unnamed/part_001` lines 456 and 268), as an exact rational. -/
def frameThreshold : ℚ := 16666 / 1000

/-- The `updateLoop` of `src/unnamed/part_001` (lines 453-499) applied to
a stream of `requestAnimationFrame` timestamps: starting from
`lastTime = 0`, a frame whose timestamp is less than `16.666` ms after the
last performed update is skipped; otherwise the DOM/physics update is
performed and `lastTime` advances.  Returns the timestamps at which an
update is performed. -/
def throttledUpdateTimes (lastTime : ℚ) : List ℚ → List ℚ
  | [] => []
  | t :: ts =>
      if t - lastTime < frameThreshold then throttledUpdateTimes lastTime ts
      else t :: throttledUpdateTimes t ts

/-- The `updateLoop` of `src/components/ProfileContainer.jsx`
(lines 358-368) applied to the same stream of timestamps: it has no time
check, so it performs its DOM update and `Matter.Engine.update` on every
frame. -/
def plainUpdateTimes (frames : List ℚ) : List ℚ :=
  frames

/-! ## One-session operations on the profiles list -/

/-- A user operation of one page session that touches the profiles list:
an add-profile submission (with the username in the form, the oracle for
its fetch, and the `Date.now()` value), or a remove. -/
inductive Op where
  | addProfile (username : String) (result : FetchResult) (now : Nat)
  | removeProfile (profileId : Nat)
  deriving Repr, DecidableEq

/-- Effect of one operation on the profiles list: an add appends the
fetched profile exactly when the trimmed username is non-blank and the
lookup succeeds (`handleAddProfile`), a remove filters by id
(`handleRemoveProfile`). -/
def applyOp (l : List Profile) : Op → List Profile
  | .addProfile username result now =>
      if jsTrim username = "" then l
      else
        match result with
        | .ok gh => l ++ [mkFetchedProfile now gh]
        | .notOk _ => l
        | .netFail _ => l

  | .removeProfile profileId => handleRemoveProfile l profileId

/-- The profiles list after a sequence of operations. -/
def runOps (l : List Profile) (ops : List Op) : List Profile :=
  ops.foldl applyOp l

/-- A successful add is id-fresh at a list when its `Date.now()` value
differs from every id already present.  Removes and failed adds are always
fresh. -/
def opFresh (l : List Profile) : Op → Bool
  | .addProfile _ _ now => (l.map Profile.id).all fun i => i != now
  | .removeProfile _ => true

/-- Every operation of the sequence is id-fresh at the list it is applied
to. -/
def opsFresh (l : List Profile) : List Op → Bool
  | [] => true
  | op :: rest => opFresh l op && opsFresh (applyOp l op) rest

/-! ## Concrete inputs used by witnesses and counterexamples -/

/-- A concrete fetched GitHub profile. -/
def ghOcto : GithubProfile :=
  { login := "octocat"
    name := some "The Octocat"
    html_url := "https://github.com/octocat"
    avatar_url := "https://avatars.githubusercontent.com/u/583231" }

/-- A concrete component state: seeded profiles, the modal open, a
username typed in. -/
def sOcto : ContainerState :=
  { profiles := initialProfiles
    formUsername := "octocat"
    isLoading := false
    error := ""
    isModalOpen := true }

/-- The state of `sOcto` with only whitespace in the username field. -/
def sBlank : ContainerState :=
  { sOcto with formUsername := "   " }

/-! ## Theorems -/

/-- C1: for every current profiles list and every submission whose
username lookup returns a not-ok response with status 404,
`handleAddProfile` leaves the profiles list unchanged, leaves the form
username unchanged, leaves the modal open, and sets the displayed error
message to "GitHub user not found". -/
theorem C1_notFound_leaves_state (s : ContainerState) (now : Nat)
    (hu : jsTrim s.formUsername ≠ "") (hm : s.isModalOpen = true) :
    (handleAddProfile s (.notOk 404) now).1.profiles = s.profiles ∧
    (handleAddProfile s (.notOk 404) now).1.formUsername = s.formUsername ∧
    (handleAddProfile s (.notOk 404) now).1.isModalOpen = true ∧
    (handleAddProfile s (.notOk 404) now).1.error = "GitHub user not found"
    := by
  simp [handleAddProfile, hu, hm]

/-- Witness for C1 at a concrete state. -/
theorem C1_witness :
    (handleAddProfile sOcto (.notOk 404) 7).1.profiles = sOcto.profiles ∧
    (handleAddProfile sOcto (.notOk 404) 7).1.formUsername
        = sOcto.formUsername ∧
    (handleAddProfile sOcto (.notOk 404) 7).1.isModalOpen = true ∧
    (handleAddProfile sOcto (.notOk 404) 7).1.error =
        "GitHub user not found" :=
  C1_notFound_leaves_state sOcto 7 (by decide) (by decide)

/-- C2: for every current profiles list and every submission whose lookup
succeeds, `handleAddProfile` produces exactly the old list with the new
profile appended at the end: the length grows by one, every pre-existing
entry keeps its value and position, and afterwards the form is reset to an
empty username and the modal is closed. -/
theorem C2_success_appends_once (s : ContainerState) (gh : GithubProfile)
    (now : Nat) (hu : jsTrim s.formUsername ≠ "") :
    (handleAddProfile s (.ok gh) now).1.profiles
        = s.profiles ++ [mkFetchedProfile now gh] ∧
    (handleAddProfile s (.ok gh) now).1.profiles.length
        = s.profiles.length + 1 ∧
    (∀ i, i < s.profiles.length →
        (handleAddProfile s (.ok gh) now).1.profiles[i]? = s.profiles[i]?) ∧
    (handleAddProfile s (.ok gh) now).1.formUsername = "" ∧
    (handleAddProfile s (.ok gh) now).1.isModalOpen = false := by
  refine ⟨by simp [handleAddProfile, hu], by simp [handleAddProfile, hu],
      ?_, by simp [handleAddProfile, hu], by simp [handleAddProfile, hu]⟩
  intro i hi
  simp only [handleAddProfile, hu, if_neg hu]
  exact List.getElem?_append_left hi

/-- Witness for C2 at a concrete state. -/
theorem C2_witness :
    (handleAddProfile sOcto (.ok ghOcto) 7).1.profiles
        = sOcto.profiles ++ [mkFetchedProfile 7 ghOcto] ∧
    (handleAddProfile sOcto (.ok ghOcto) 7).1.profiles.length
        = sOcto.profiles.length + 1 ∧
    (handleAddProfile sOcto (.ok ghOcto) 7).1.profiles[1]?
        = sOcto.profiles[1]? ∧
    (handleAddProfile sOcto (.ok ghOcto) 7).1.formUsername = "" ∧
    (handleAddProfile sOcto (.ok ghOcto) 7).1.isModalOpen = false :=
  have h := C2_success_appends_once sOcto ghOcto 7 (by decide)
  ⟨h.1, h.2.1, h.2.2.1 1 (by decide), h.2.2.2.1, h.2.2.2.2⟩

/-- C9: submitting the form with an empty or whitespace-only username sets
the error message to "Please enter a GitHub username", performs no network
fetch, and leaves the profiles list, the loading state and the modal state
unchanged. -/
theorem C9_blank_username (s : ContainerState) (res : FetchResult)
    (now : Nat) (hu : jsTrim s.formUsername = "") :
    (handleAddProfile s res now).1.error
        = "Please enter a GitHub username" ∧
    (handleAddProfile s res now).2 = 0 ∧
    (handleAddProfile s res now).1.profiles = s.profiles ∧
    (handleAddProfile s res now).1.isLoading = s.isLoading ∧
    (handleAddProfile s res now).1.isModalOpen = s.isModalOpen := by
  simp [handleAddProfile, hu]

/-- Witness for C9 at a concrete whitespace-only state. -/
theorem C9_witness :
    (handleAddProfile sBlank (.ok ghOcto) 7).1.error
        = "Please enter a GitHub username" ∧
    (handleAddProfile sBlank (.ok ghOcto) 7).2 = 0 ∧
    (handleAddProfile sBlank (.ok ghOcto) 7).1.profiles
        = sBlank.profiles ∧
    (handleAddProfile sBlank (.ok ghOcto) 7).1.isLoading
        = sBlank.isLoading ∧
    (handleAddProfile sBlank (.ok ghOcto) 7).1.isModalOpen
        = sBlank.isModalOpen :=
  C9_blank_username sBlank (.ok ghOcto) 7 (by decide)

/-- C3: `handleRemoveProfile` yields exactly the entries whose id differs
from `profileId`, in their original order (a sublist of the input); when
ids are unique and `profileId` occurs, exactly one entry is removed. -/
theorem C3_remove_filters_by_id (profiles : List Profile)
    (profileId : Nat) :
    (∀ p, p ∈ handleRemoveProfile profiles profileId ↔
        p ∈ profiles ∧ p.id ≠ profileId) ∧
    (handleRemoveProfile profiles profileId).Sublist profiles ∧
    ((profiles.map Profile.id).Nodup →
      ∀ q ∈ profiles, q.id = profileId →
        (handleRemoveProfile profiles profileId).length + 1
          = profiles.length) := by
  refine ⟨?_, List.filter_sublist profiles, ?_⟩
  · intro p
    simp [handleRemoveProfile, List.mem_filter]
  · intro hnodup q hq hqid
    have hmem : profileId ∈ profiles.map Profile.id :=
      hqid ▸ List.mem_map_of_mem Profile.id hq
    have hcount : (profiles.map Profile.id).count profileId = 1 :=
      List.count_eq_one_of_mem hnodup hmem
    have hcountP :
        profiles.countP (fun p => p.id == profileId) = 1 := by
      have := List.countP_map (· == profileId) Profile.id profiles
      simpa [List.count, this] using hcount
    have hsplit :=
      profiles.length_eq_countP_add_countP (fun p => p.id == profileId)
    have hlenfilter :
        (handleRemoveProfile profiles profileId).length
          = profiles.countP (fun p => p.id != profileId) := by
      simp [handleRemoveProfile, ← List.countP_eq_length_filter]
    have hfun : (fun a : Profile => decide ¬(a.id == profileId) = true)
        = fun a : Profile => a.id != profileId := by
      funext a
      by_cases h : a.id = profileId <;> simp [h]
    rw [hfun] at hsplit
    omega

/-- Witness for C3: removing the seeded profile with id 2. -/
theorem C3_witness :
    (handleRemoveProfile initialProfiles 2).Sublist initialProfiles ∧
    (handleRemoveProfile initialProfiles 2).length + 1
        = initialProfiles.length :=
  ⟨(C3_remove_filters_by_id initialProfiles 2).2.1,
   (C3_remove_filters_by_id initialProfiles 2).2.2 (by decide)
      { id := 2
        name := "Dan Abramov"
        profileUrl := "https://github.com/gaearon"
        avatarUrl := "https://github.com/gaearon.png" }
      (by decide) rfl⟩

/-- C6: on every submission `handleAddProfile` performs at most one
network fetch; every failure (not-ok response or rejected fetch) only sets
the displayed error message, leaving the profiles list, the form contents
and the modal state unchanged; and no other action of the component
(typing in the form, opening or closing the modal) leaves a user-facing
error displayed. -/
theorem C6_single_error_path (s : ContainerState) (res : FetchResult)
    (now : Nat) (value : String) :
    (handleAddProfile s res now).2 ≤ 1 ∧
    (jsTrim s.formUsername ≠ "" → res.isFailure →
      ((handleAddProfile s res now).1.profiles = s.profiles ∧
       (handleAddProfile s res now).1.formUsername = s.formUsername ∧
       (handleAddProfile s res now).1.isModalOpen = s.isModalOpen ∧
       (handleAddProfile s res now).1.error = res.failureMessage)) ∧
    (handleInputChange s value).error = "" ∧
    (openModalClick s).error = "" ∧
    (closeModalClick s).error = "" := by
  refine ⟨?_, ?_, ?_, rfl, rfl⟩
  · by_cases h : jsTrim s.formUsername = "" <;>
      cases res <;> simp [handleAddProfile, h]
  · intro hu hfail
    cases res with
    | ok gh => exact absurd hfail (by simp [FetchResult.isFailure])
    | notOk status =>
        refine ⟨?_, ?_, ?_, ?_⟩ <;>
          simp [handleAddProfile, hu, FetchResult.failureMessage]
    | netFail msg =>
        refine ⟨?_, ?_, ?_, ?_⟩ <;>
          simp [handleAddProfile, hu, FetchResult.failureMessage]
  · show (if s.error = "" then s.error else "") = ""
    split
    · assumption
    · rfl

/-- Witness for C6: a 500 response at a concrete state. -/
theorem C6_witness :
    (handleAddProfile sOcto (.notOk 500) 7).2 ≤ 1 ∧
    (handleAddProfile sOcto (.notOk 500) 7).1.profiles = sOcto.profiles ∧
    (handleAddProfile sOcto (.notOk 500) 7).1.error
        = "Failed to fetch profile data" ∧
    (handleInputChange sOcto "x").error = "" :=
  have h := C6_single_error_path sOcto (.notOk 500) 7 "x"
  have h2 := h.2.1 (by decide) (by decide)
  ⟨h.1, h2.1, h2.2.2.2.trans (by decide), h.2.2.1⟩

/-- One fresh operation preserves distinctness of the ids. -/
theorem applyOp_ids_nodup (l : List Profile) (op : Op)
    (h : (l.map Profile.id).Nodup) (hf : opFresh l op = true) :
    ((applyOp l op).map Profile.id).Nodup := by
  cases op with
  | addProfile username result now =>
      by_cases hu : jsTrim username = ""
      · simpa [applyOp, hu] using h
      · cases result with
        | ok gh =>
            have hnotmem : now ∉ l.map Profile.id := by
              simp only [opFresh, List.all_eq_true, bne_iff_ne] at hf
              intro hmem
              exact hf now hmem rfl
            simp [applyOp, hu, List.nodup_append, mkFetchedProfile, h,
              hnotmem]
        | notOk status => simpa [applyOp, hu] using h
        | netFail msg => simpa [applyOp, hu] using h
  | removeProfile profileId =>
      exact ((List.filter_sublist l).map Profile.id).nodup h

/-- A fresh sequence of operations preserves distinctness of the ids. -/
theorem runOps_ids_nodup (ops : List Op) (l : List Profile)
    (h : (l.map Profile.id).Nodup) (hf : opsFresh l ops = true) :
    ((runOps l ops).map Profile.id).Nodup := by
  induction ops generalizing l with
  | nil => simpa [runOps] using h
  | cons op rest ih =>
      rw [opsFresh, Bool.and_eq_true] at hf
      exact ih (applyOp l op) (applyOp_ids_nodup l op h hf.1) hf.2

/-- C4 counterexample: the code does not enforce id uniqueness.  Ids of
added profiles are raw `Date.now()` values; a single successful add whose
`Date.now()` value collides with a present id (here the seeded id 1, as
happens for any two adds landing in the same millisecond) yields a
reachable list with a duplicated id. -/
theorem C4_counterexample :
    ¬ ((runOps initialProfiles
          [Op.addProfile "octocat" (.ok ghOcto) 1]).map
        Profile.id).Nodup := by
  decide

/-- C4 (amended): in every profiles list reachable from the three seeded
profiles by a sequence of add and remove operations in which each
successful add's `Date.now()` value differs from every id present at that
moment, the profile ids are pairwise distinct. -/
theorem C4_fresh_ids_nodup (ops : List Op)
    (hf : opsFresh initialProfiles ops = true) :
    ((runOps initialProfiles ops).map Profile.id).Nodup :=
  runOps_ids_nodup ops initialProfiles (by decide) hf

/-- Witness for C4: an add with a fresh timestamp followed by a remove. -/
theorem C4_witness :
    opsFresh initialProfiles
        [Op.addProfile "octocat" (.ok ghOcto) 99,
         Op.removeProfile 2] = true ∧
    ((runOps initialProfiles
        [Op.addProfile "octocat" (.ok ghOcto) 99,
         Op.removeProfile 2]).map Profile.id).Nodup :=
  ⟨by decide,
   C4_fresh_ids_nodup
     [Op.addProfile "octocat" (.ok ghOcto) 99, Op.removeProfile 2]
     (by decide)⟩

/-- C5 counterexample: the profile appended by a successful lookup is not
exactly the four-field record `{ id, name, profileUrl, avatarUrl }` the
claim describes: the code (line 97 of `src/components/ProfileContainer.jsx`)
also stores a `username` field, absent (`none`) on the seeded profiles but
`some "octocat"` here. -/
theorem C5_counterexample :
    (handleAddProfile sOcto (.ok ghOcto) 7).1.profiles.getLast?
        = some (mkFetchedProfile 7 ghOcto) ∧
    (mkFetchedProfile 7 ghOcto).username ≠ none := by
  exact ⟨by decide, by decide⟩

/-- C5 (amended): a profile appended from a successful lookup populates
`name` with the fetched display name, falling back to the login when the
display name is null or empty (JavaScript `||`), `profileUrl` with the
fetched `html_url`, `avatarUrl` with the fetched `avatar_url`, and
additionally stores the fetched login in a `username` field; the seeded
profiles carry only the four claimed fields (`username` absent). -/
theorem C5_profile_fields (s : ContainerState) (gh : GithubProfile)
    (now : Nat) (hu : jsTrim s.formUsername ≠ "") :
    (handleAddProfile s (.ok gh) now).1.profiles
        = s.profiles ++ [mkFetchedProfile now gh] ∧
    (mkFetchedProfile now gh).id = now ∧
    (mkFetchedProfile now gh).profileUrl = gh.html_url ∧
    (mkFetchedProfile now gh).avatarUrl = gh.avatar_url ∧
    (mkFetchedProfile now gh).username = some gh.login ∧
    (∀ n, gh.name = some n → n ≠ "" →
        (mkFetchedProfile now gh).name = n) ∧
    (gh.name = none → (mkFetchedProfile now gh).name = gh.login) ∧
    (∀ p ∈ initialProfiles, p.username = none) := by
  refine ⟨by simp [handleAddProfile, hu], rfl, rfl, rfl, rfl, ?_, ?_,
      by decide⟩
  · intro n hn hne
    simp [mkFetchedProfile, jsOrString, hn, hne]
  · intro hn
    simp [mkFetchedProfile, jsOrString, hn]

/-- Witness for C5 at a concrete state. -/
theorem C5_witness :
    (handleAddProfile sOcto (.ok ghOcto) 7).1.profiles
        = sOcto.profiles ++ [mkFetchedProfile 7 ghOcto] ∧
    (mkFetchedProfile 7 ghOcto).username = some "octocat" ∧
    (mkFetchedProfile 7 ghOcto).name = "The Octocat" :=
  have h := C5_profile_fields sOcto ghOcto 7 (by decide)
  ⟨h.1, h.2.2.2.2.1, h.2.2.2.2.2.1 "The Octocat" rfl (by decide)⟩

/-- The first update the throttled loop performs is at least the frame
budget after the starting `lastTime`. -/
theorem throttledUpdateTimes_head (frames : List ℚ) (lastTime : ℚ) :
    ∀ t ∈ (throttledUpdateTimes lastTime frames).head?,
      frameThreshold ≤ t - lastTime := by
  induction frames generalizing lastTime with
  | nil => intro t ht; simp [throttledUpdateTimes] at ht
  | cons f fs ih =>
      intro t ht
      rw [throttledUpdateTimes] at ht
      by_cases hf : f - lastTime < frameThreshold
      · exact ih lastTime t (by simpa [hf] using ht)
      · have htf : f = t := by simpa [hf] using ht
        subst htf
        exact le_of_not_lt hf

/-- The throttled update loop of `src/unnamed/part_001` does satisfy the
claimed 60 FPS cap: any two consecutive performed updates are at least
`16.666` ms apart. -/
theorem throttledUpdateTimes_spacing (frames : List ℚ) (lastTime : ℚ) :
    (throttledUpdateTimes lastTime frames).Chain'
      fun a b => frameThreshold ≤ b - a := by
  induction frames generalizing lastTime with
  | nil => simp [throttledUpdateTimes]
  | cons f fs ih =>
      rw [throttledUpdateTimes]
      by_cases hf : f - lastTime < frameThreshold
      · simpa [hf] using ih lastTime
      · simp only [hf, if_false]
        exact List.chain'_cons'.mpr ⟨throttledUpdateTimes_head fs f, ih f⟩

/-- C7 (code evaluated at the failing input): the `updateLoop` of
`src/components/ProfileContainer.jsx` performs its DOM/physics update on
every animation frame with no time check.  On two frames at 0 ms and 5 ms
it updates both times even though they are less than `16.666` ms apart —
contradicting the claimed throttle, as well as the file's own header
comment ("Optimized animation loop with 60 FPS cap").  The `updateLoop`
of `src/unnamed/part_001`, by contrast, skips the second frame. -/
theorem C7_unthrottled_updates :
    plainUpdateTimes [20, 25] = [20, 25] ∧
    (25 : ℚ) - 20 < frameThreshold ∧
    throttledUpdateTimes 0 [20, 25] = [20] := by
  refine ⟨rfl, by norm_num [frameThreshold],
      by norm_num [throttledUpdateTimes, frameThreshold]⟩

/-- C8: the physics set-up never proceeds with invalid dimensions: it
creates nothing when the measured width or height is not strictly
positive, any set-up it does create comes from strictly positive
dimensions, and the resize handler tears the effect down
(`effectStarted := false`) and recreates it (`true` after the timeout). -/
theorem C8_resize_setup_guard (containerRect : Rect)
    (elemRects : List Rect) (started : Bool) :
    (containerRect.width ≤ 0 ∨ containerRect.height ≤ 0 →
        physicsEffect started containerRect elemRects = none) ∧
    (∀ setup, physicsEffect started containerRect elemRects = some setup →
        0 < containerRect.width ∧ 0 < containerRect.height) ∧
    handleResize true = (false, true) := by
  refine ⟨?_, ?_, rfl⟩
  · intro h
    cases started with
    | false => rfl
    | true => simp [physicsEffect, setupPhysics, h]
  · intro setup hs
    cases started with
    | false => simp [physicsEffect] at hs
    | true =>
        by_cases h : containerRect.width ≤ 0 ∨ containerRect.height ≤ 0
        · simp [physicsEffect, setupPhysics, h] at hs
        · push_neg at h
          exact h

/-- Witness for C8: a container measured with negative width creates no
physics world; the resize handler restarts the effect. -/
theorem C8_witness :
    physicsEffect true ⟨0, 0, -5, 10⟩ [] = none ∧
    handleResize true = (false, true) :=
  ⟨(C8_resize_setup_guard ⟨0, 0, -5, 10⟩ [] true).1 (Or.inl (by decide)),
   (C8_resize_setup_guard ⟨0, 0, -5, 10⟩ [] true).2.2⟩

/-- Modelled from the claim wording of C10: "the path segment immediately
following github.com/" read literally is everything after the first
occurrence of `"github.com/"`, truncated at the next `"/"`.  Compare with
`githubSegment`, which embeds what the code computes. -/
def specPathSegment (url : String) : String :=
  match afterFirst "github.com/".data url.data with
  | none => ""
  | some rest => String.mk (upTo "/".data rest)

/-- A derived avatar URL is never the empty string. -/
theorem github_avatar_ne_empty (u : String) :
    "https://github.com/" ++ u ++ ".png" ≠ "" := by
  intro h
  have h2 := congrArg String.length h
  simp [String.length_append] at h2
  exact absurd h2.2 (by decide)

/-- A manual-entry state whose profile URL contains a second
`"github.com/"` inside the first path segment after the first one. -/
def manualPathological : ManualState :=
  { profiles := initialProfiles
    form := { name := "Ab"
              profileUrl := "https://github.com/abgithub.com/x"
              avatarUrl := "" }
    isModalOpen := true }

/-- C10 counterexample: JavaScript `split` cuts at every occurrence of
`"github.com/"`, so piece `[1]` ends at the *second* occurrence, not at
the next `"/"`.  For the profile URL
`"https://github.com/abgithub.com/x"` the path segment immediately
following `"github.com/"` is `"abgithub.com"`, but the code stores
`"https://github.com/ab.png"`, not
`"https://github.com/abgithub.com.png"`. -/
theorem C10_counterexample :
    ((handleAddProfileManual manualPathological 7).profiles.getLast?).map
        Profile.avatarUrl = some "https://github.com/ab.png" ∧
    specPathSegment "https://github.com/abgithub.com/x" = "abgithub.com" ∧
    ("https://github.com/ab.png" : String)
        ≠ "https://github.com/" ++ "abgithub.com" ++ ".png" := by
  refine ⟨by decide, by decide, by decide⟩

/-- C10 (amended): in the manual-entry variant, when the avatar URL field
is blank and the profile URL contains `"github.com/"`, the stored
`avatarUrl` is `"https://github.com/<username>.png"` where `<username>` is
the text between the first and second occurrence of `"github.com/"` (up
to the end when there is only one occurrence), truncated at its first
`"/"` — for URLs with a single occurrence this is the path segment
immediately following `"github.com/"`; when no avatar URL can be derived
(no occurrence, or an empty extraction), the stored `avatarUrl` defaults
to `"https://github.com/github.png"`. -/
theorem C10_avatar_derivation (s : ManualState) (now : Nat)
    (hname : jsTrim s.form.name ≠ "")
    (hurl : jsTrim s.form.profileUrl ≠ "")
    (hav : jsTrim s.form.avatarUrl = "") :
    (jsIncludes s.form.profileUrl "github.com/" = true →
        githubSegment s.form.profileUrl ≠ "" →
        (handleAddProfileManual s now).profiles
          = s.profiles ++
            [{ id := now
               name := jsTrim s.form.name
               profileUrl := jsTrim s.form.profileUrl
               avatarUrl := "https://github.com/"
                   ++ githubSegment s.form.profileUrl ++ ".png" }]) ∧
    ((jsIncludes s.form.profileUrl "github.com/" = false ∨
        githubSegment s.form.profileUrl = "") →
        (handleAddProfileManual s now).profiles
          = s.profiles ++
            [{ id := now
               name := jsTrim s.form.name
               profileUrl := jsTrim s.form.profileUrl
               avatarUrl := "https://github.com/github.png" }]) := by
  constructor
  · intro hinc hseg
    simp [handleAddProfileManual, hname, hurl, manualAvatarUrl, hav, hinc,
      hseg, github_avatar_ne_empty]
  · intro hcase
    rcases hcase with hinc | hseg
    · simp [handleAddProfileManual, hname, hurl, manualAvatarUrl, hav,
        hinc]
    · by_cases hinc : jsIncludes s.form.profileUrl "github.com/" = true
      · simp [handleAddProfileManual, hname, hurl, manualAvatarUrl, hav,
          hinc, hseg]
      · simp [handleAddProfileManual, hname, hurl, manualAvatarUrl, hav,
          hinc]

/-- A well-behaved manual-entry state for the C10 witness. -/
def manualJane : ManualState :=
  { profiles := initialProfiles
    form := { name := " Jane Doe "
              profileUrl := "https://github.com/janedoe"
              avatarUrl := "  " }
    isModalOpen := true }

/-- Witness for C10: a blank avatar field with a plain GitHub profile URL
derives the `.png` avatar of the username. -/
theorem C10_witness :
    (handleAddProfileManual manualJane 42).profiles
      = manualJane.profiles ++
        [{ id := 42
           name := "Jane Doe"
           profileUrl := "https://github.com/janedoe"
           avatarUrl := "https://github.com/janedoe.png" }] := by
  have h := (C10_avatar_derivation manualJane 42 (by decide) (by decide)
      (by decide)).1 (by decide) (by decide)
  exact h.trans (by decide)

end UMakeIt
